import Mathlib

/-!
Verification development for the Morefixes repository's remote-file ingestion
and deduplication engine.  The Python sources under `src/` are shallowly
embedded: dictionaries of dynamically typed values become a record of
`Option PyVal` fields (`Option.none` models an absent key, `PyVal.pnone`
models a present key bound to Python `None`), the process-wide
`ParserCoordinator` becomes explicit state passing, and the cooperative
monitor loops become step functions over an explicit state type driven by
an input describing the environment's behaviour for one iteration.
Library calls (`datetime.fromisoformat`, `datetime.strptime`,
`int(float(...))`) are abstracted as function parameters bundled in `PyLib`;
control flow around them is translated from the source.
-/

/-- Model of a `datetime.datetime` value at second precision, sufficient for
the timestamps handled by the parsers. -/
structure DateTime where
  year : Nat
  month : Nat
  day : Nat
  hour : Nat
  minute : Nat
  second : Nat
deriving DecidableEq, Repr

/-- Zero-padding to two digits, as `datetime` string conversion does. -/
def pad2 (n : Nat) : String :=
  if n < 10 then "0" ++ toString n else toString n

/-- Zero-padding to four digits for years. -/
def pad4 (n : Nat) : String :=
  if n < 10 then "000" ++ toString n
  else if n < 100 then "00" ++ toString n
  else if n < 1000 then "0" ++ toString n
  else toString n

/-- Model of `datetime.isoformat()` for second-precision values:
`YYYY-MM-DDTHH:MM:SS`. -/
def DateTime.isoformat (t : DateTime) : String :=
  pad4 t.year ++ "-" ++ pad2 t.month ++ "-" ++ pad2 t.day ++ "T" ++
    pad2 t.hour ++ ":" ++ pad2 t.minute ++ ":" ++ pad2 t.second

/-- Model of `str(datetime)` (space separator instead of `T`). -/
def DateTime.pystr (t : DateTime) : String :=
  pad4 t.year ++ "-" ++ pad2 t.month ++ "-" ++ pad2 t.day ++ " " ++
    pad2 t.hour ++ ":" ++ pad2 t.minute ++ ":" ++ pad2 t.second

/-- Dynamically typed Python values as they occur in the event dictionaries:
`None`, strings, `datetime` values, integers and booleans. -/
inductive PyVal where
  | pnone
  | pstr (s : String)
  | pdt (t : DateTime)
  | pint (n : Int)
  | pbool (b : Bool)
deriving DecidableEq, Repr

/-- Python truthiness for the modelled value kinds. -/
def PyVal.truthy : PyVal → Bool
  | .pnone => false
  | .pstr s => !s.isEmpty
  | .pdt _ => true
  | .pint n => n != 0
  | .pbool b => b

/-- Python `==` for the modelled value kinds; comparisons across the value
kinds modelled here are `False` in Python for the values that actually occur
(strings, datetimes, `None`). -/
def PyVal.pyEq : PyVal → PyVal → Bool
  | .pnone, .pnone => true
  | .pstr a, .pstr b => a == b
  | .pdt a, .pdt b => a == b
  | .pint a, .pint b => a == b
  | .pbool a, .pbool b => a == b
  | _, _ => false

/-- Python `str()` / f-string conversion of a value. -/
def PyVal.pyFStr : PyVal → String
  | .pnone => "None"
  | .pstr s => s
  | .pdt t => t.pystr
  | .pint n => toString n
  | .pbool b => if b then "True" else "False"

/-- An event dictionary.  Each field is `Option.none` when the key is absent
from the dictionary and `some v` when the key is present with value `v`
(`some PyVal.pnone` for a key bound to Python `None`).  The field set is the
union of the keys read or written by `utils/parser_utils.py`,
`cogs/killfeed.py` and `cogs/log_processor.py`. -/
structure Event where
  timestamp : Option PyVal := none
  killer_id : Option PyVal := none
  killer_name : Option PyVal := none
  victim_id : Option PyVal := none
  victim_name : Option PyVal := none
  player_id : Option PyVal := none
  player_name : Option PyVal := none
  weapon : Option PyVal := none
  location : Option PyVal := none
  distance : Option PyVal := none
  event_type : Option PyVal := none
  mission_name : Option PyVal := none
  event_id : Option PyVal := none
  action : Option PyVal := none
  server_id : Option PyVal := none
  is_suicide : Option PyVal := none
  suicide_type : Option PyVal := none
  difficulty : Option PyVal := none
  source : Option PyVal := none
deriving DecidableEq, Repr

/-- Helper for `event.get(key, default)`. -/
def pyGet (f : Option PyVal) (d : PyVal) : PyVal := f.getD d

/-- The timestamp string used by `ParserCoordinator.generate_event_hash`
(utils/parser_utils.py): `event.get("timestamp", "")`, converted with
`isoformat()` when it is a `datetime`, otherwise by f-string conversion. -/
def hashTimestampStr (t : Option PyVal) : String :=
  match pyGet t (.pstr "") with
  | .pdt d => d.isoformat
  | v => v.pyFStr

/-- An `event.get(key, "")` field rendered into the hash string by the
f-string of `generate_event_hash`. -/
def fieldStr (f : Option PyVal) : String := (pyGet f (.pstr "")).pyFStr

/-- The `event_type` membership tests used by `generate_event_hash` and
`categorize_event`: Python `x in [a, b, ...]` over string lists. -/
def pyInStrList (v : PyVal) (l : List String) : Bool :=
  l.any (fun s => v.pyEq (.pstr s))

/-- Model of `ParserCoordinator.generate_event_hash`
(utils/parser_utils.py lines 32-84).  The parameter `fh` models
`hash(str(event))` of the fallback branch: CPython's `hash` is
process-seed dependent, so it is kept abstract; no claim exercises this
branch. -/
def generate_event_hash (fh : Event → Int) (e : Event) : String :=
  if e.killer_id.isSome && e.victim_id.isSome then
    hashTimestampStr e.timestamp ++ "_" ++ fieldStr e.killer_id ++ "_" ++
      fieldStr e.victim_id ++ "_" ++ fieldStr e.weapon
  else if e.event_type.isSome && (pyGet e.event_type .pnone).pyEq (.pstr "mission") then
    hashTimestampStr e.timestamp ++ "_" ++ fieldStr e.mission_name ++ "_" ++
      fieldStr e.location
  else if e.event_type.isSome &&
      pyInStrList (pyGet e.event_type .pnone) ["airdrop", "helicrash", "trader", "convoy"] then
    hashTimestampStr e.timestamp ++ "_" ++ fieldStr e.event_type ++ "_" ++
      fieldStr e.event_id
  else if e.event_type.isSome &&
      pyInStrList (pyGet e.event_type .pnone) ["register", "unregister", "join", "kick"] then
    hashTimestampStr e.timestamp ++ "_" ++ fieldStr e.event_type ++ "_" ++
      fieldStr e.player_id
  else
    hashTimestampStr e.timestamp ++ "_" ++ toString (fh e)

/-- State of the process-wide `ParserCoordinator`.  `seen` models
`processed_event_hashes`; the Python value is a `set` whose iteration order
is unspecified, modelled here as an insertion-ordered list without
duplicates. -/
structure CoordState where
  seen : List String := []
  last_csv : List (String × DateTime) := []
  last_log : List (String × DateTime) := []
deriving DecidableEq, Repr

/-- Model of `ParserCoordinator._prune_old_hashes`
(utils/parser_utils.py lines 108-116): once the set holds more than 10000
hashes, retain only the most recent 1000 (most recent in the insertion
order of this model; the Python source slices `list(set)[-1000:]`). -/
def prune_old_hashes (s : List String) : List String :=
  if 10000 < s.length then
    if 1000 < s.length then s.drop (s.length - 1000) else s
  else s

/-- Model of `ParserCoordinator.is_duplicate_event`
(utils/parser_utils.py lines 86-106): returns whether the event's hash was
already seen, and the coordinator state after the call (the hash is added,
then the set is pruned, before the caller resumes). -/
def is_duplicate_event (fh : Event → Int) (e : Event) (st : CoordState) :
    Bool × CoordState :=
  let h := generate_event_hash fh e
  if h ∈ st.seen then (true, st)
  else (false, { st with seen := prune_old_hashes (st.seen ++ [h]) })

/-- Dictionary update `d[k] = v` for the coordinator's timestamp maps. -/
def assocSet (l : List (String × DateTime)) (k : String) (v : DateTime) :
    List (String × DateTime) :=
  (l.filter (fun p => p.1 != k)) ++ [(k, v)]

/-- Model of `ParserCoordinator.update_log_timestamp`
(utils/parser_utils.py lines 127-134). -/
def update_log_timestamp (st : CoordState) (server_id : String) (t : DateTime) :
    CoordState :=
  { st with last_log := assocSet st.last_log server_id t }

/-- The possible outcomes of CPython's `int(float(s))`: a value, a
`ValueError` or `TypeError` (unparseable string, or NaN at the `int` step —
these are the exception classes the caller catches), or an `OverflowError`
(`float(s)` yields an infinity, e.g. `s = "inf"` or `"1e999"`) which is not
a `ValueError`/`TypeError` and so escapes the caller's handler. -/
inductive FloatIntOutcome where
  | ok (n : Int)
  | valueError
  | overflowError
deriving DecidableEq, Repr

/-- Abstract interface to the Python standard-library calls made by the
parsers.  `fromisoformat s` models `datetime.fromisoformat(s)` (`none` for
`ValueError`), `strptime s fmt` models `datetime.strptime(s, fmt)`,
`float_int s` models `int(float(s))` with its three outcome classes
(see `FloatIntOutcome`), and `utcnow` is the ingestion time of the current
call.  Control flow around these calls is translated from the source; the
calls themselves are library behaviour and kept abstract. -/
structure PyLib where
  fromisoformat : String → Option DateTime
  strptime : String → String → Option DateTime
  float_int : String → FloatIntOutcome
  utcnow : DateTime

/-- The `common_formats` list of `normalize_event_data`
(utils/parser_utils.py lines 222-227), in source order. -/
def common_formats : List String :=
  ["%Y.%m.%d-%H.%M.%S", "%Y.%m.%d-%H.%M.%S:%f", "%Y-%m-%d %H:%M:%S", "%Y-%m-%d %H:%M:%S.%f"]

/-- Timestamp handling of `normalize_event_data`
(utils/parser_utils.py lines 212-245): a present string timestamp is parsed
with ISO-8601 first, then the `common_formats` in order (first success
wins), else replaced by the ingestion time; an absent timestamp key is set
to the ingestion time; a present non-string value (including `None` and
`datetime`) is left unchanged. -/
def normalize_timestamp (lib : PyLib) (t : Option PyVal) : Option PyVal :=
  match t with
  | none => some (.pdt lib.utcnow)
  | some (.pstr s) =>
    match lib.fromisoformat s with
    | some d => some (.pdt d)
    | none =>
      match common_formats.findSome? (fun fmt => lib.strptime s fmt) with
      | some d => some (.pdt d)
      | none => some (.pdt lib.utcnow)
  | some v => some v

/-- The `is None` to empty-string normalization applied to identifier and
string fields (utils/parser_utils.py lines 247-260): only a present key
bound to `None` is rewritten; an absent key stays absent. -/
def noneToEmpty (f : Option PyVal) : Option PyVal :=
  match f with
  | some .pnone => some (.pstr "")
  | x => x

/-- Distance normalization (utils/parser_utils.py lines 262-272): a present
`None` becomes `0`; a present string is converted with `int(float(s))`,
and the handler `except (ValueError, TypeError)` at line 271 falls back to
`0` for those two exception classes only — an `OverflowError` (the string
parses to an infinite float, e.g. `"inf"`) is not caught and propagates,
modelled as the outer `none`. -/
def normalize_distance (lib : PyLib) (f : Option PyVal) : Option (Option PyVal) :=
  let f1 : Option PyVal :=
    match f with
    | some .pnone => some (.pint 0)
    | x => x
  match f1 with
  | some (.pstr s) =>
    match lib.float_int s with
    | .ok n => some (some (.pint n))
    | .valueError => some (some (.pint 0))
    | .overflowError => none
  | x => some x

/-- Model of `normalize_event_data` (utils/parser_utils.py lines 199-274).
The result is `none` when the distance conversion raises an uncaught
`OverflowError` (see `normalize_distance`): the exception propagates out of
`normalize_event_data` and the partially-updated copy is discarded.  All
other steps (timestamp parsing wrapped in its own handlers, the `is None`
rewrites) cannot raise, so every other input yields `some` of the
normalized event. -/
def normalize_event_data (lib : PyLib) (e : Event) : Option Event :=
  match normalize_distance lib e.distance with
  | none => none
  | some dist =>
    some { e with
      timestamp := normalize_timestamp lib e.timestamp
      killer_id := noneToEmpty e.killer_id
      victim_id := noneToEmpty e.victim_id
      player_id := noneToEmpty e.player_id
      killer_name := noneToEmpty e.killer_name
      victim_name := noneToEmpty e.victim_name
      player_name := noneToEmpty e.player_name
      weapon := noneToEmpty e.weapon
      location := noneToEmpty e.location
      distance := dist }

/-- Model of `categorize_event` (utils/parser_utils.py lines 276-307) after
the explicit `event_type` branches did not return: kill events have both
`killer_id` and `victim_id` keys, and are a suicide only when both values
are truthy and equal; connection events have `player_id` and `action`
keys. -/
def categorize_rest (e : Event) : String :=
  match e.killer_id, e.victim_id with
  | some k, some v =>
    if k.truthy && v.truthy && k.pyEq v then "suicide" else "kill"
  | _, _ =>
    if e.player_id.isSome && e.action.isSome then "connection" else "unknown"

/-- Model of `categorize_event` (utils/parser_utils.py lines 276-307). -/
def categorize_event (e : Event) : String :=
  match e.event_type with
  | some et =>
    if pyInStrList et ["register", "unregister", "join", "kick"] then "connection"
    else if et.pyEq (.pstr "mission") then "mission"
    else if pyInStrList et ["airdrop", "helicrash", "trader", "convoy"] then "game_event"
    else categorize_rest e
  | none => categorize_rest e

example :
    categorize_event { killer_id := some (.pstr "a"), victim_id := some (.pstr "a") } =
      "suicide" := by decide

example :
    categorize_event { killer_id := some (.pstr ""), victim_id := some (.pstr "") } =
      "kill" := by decide

/-- Modelled from the spec: `SFTPClient.read_file` lives in `utils/sftp.py`,
which is not part of the sources; only its callers are.  Spec section 4.1
gives the contract `readLines(path, fromLine, maxLines?) -> [string]`
reading the lines beyond the cursor and stopping after `maxLines` or
end-of-file, whichever comes first.  `lines` is the remote file's content,
`fromLine` the number of already-processed lines. -/
def readLines (lines : List String) (fromLine : Nat) (maxLines : Option Nat) :
    List String :=
  match maxLines with
  | none => lines.drop fromLine
  | some m => (lines.drop fromLine).take m

/-- Modelled from the spec: `SFTPClient.get_file_size` (utils/sftp.py is not
part of the sources).  Spec section 4.1: `fileLineCount(path) -> int`, the
total line count of the remote file. -/
def fileLineCount (lines : List String) : Nat := lines.length

/-- Modelled from the spec: `CSVParser.parse_kill_lines` (utils/parsers.py
is not part of the sources).  Spec section 4.3: the CSV extractor splits
each line on a fixed delimiter, maps positional fields by a column schema,
and skips unparseable lines without aborting the batch.  The Deadside
kill-feed columns are timestamp, killer name, killer id, victim name,
victim id, weapon, distance. -/
def splitSemi : List Char → List (List Char)
  | [] => [[]]
  | c :: rest =>
    if c = ';' then [] :: splitSemi rest
    else
      match splitSemi rest with
      | [] => [[c]]
      | g :: gs => (c :: g) :: gs

/-- Modelled from the spec: see `parse_kill_lines`; the semicolon split is
implemented by structural recursion over the characters (`splitSemi`) so
that it evaluates inside the kernel. -/
def parse_kill_line (line : String) : Option Event :=
  match (splitSemi line.data).map List.asString with
  | ts :: kn :: kid :: vn :: vid :: w :: dist :: _ =>
    some { timestamp := some (.pstr ts), killer_name := some (.pstr kn),
           killer_id := some (.pstr kid), victim_name := some (.pstr vn),
           victim_id := some (.pstr vid), weapon := some (.pstr w),
           distance := some (.pstr dist),
           is_suicide := some (.pbool (kid == vid && !kid.isEmpty)) }
  | _ => none

/-- Modelled from the spec: see `parse_kill_line`. -/
def parse_kill_lines (lines : List String) : List Event :=
  lines.filterMap parse_kill_line

/-- Modelled from the spec: reading `Server.last_csv_line` at monitor start
(models/server.py is not part of the sources).  Spec section 3
(`ReadCursor`): a restart re-reads from the last persisted value, and a
missing cursor (first run) means starting from zero. -/
def load_last_csv_line (stored : Option Nat) : Nat := stored.getD 0

/-- Environment oracle for one `process_kill_event` call in
`cogs/killfeed.py`: whether `bot.db.kills.insert_one` succeeds for a given
document, whether the post-insert section (guild fetch, embed building)
runs without raising, whether `channel.send` succeeds, the per-type
suicide-notification toggles of the server, the server id, and the
standard-library interface. -/
structure KillfeedEnv where
  lib : PyLib
  insertOk : Event → Bool
  post_insert_ok : Event → Bool
  send_ok : Bool
  suicide_notifs : List (String × Bool)
  server_id : String

/-- Timestamp handling of `process_kill_event` (cogs/killfeed.py lines
736-751): a string is parsed with ISO-8601 first, then the CSV file format
`%Y.%m.%d-%H.%M.%S`, else replaced with the current time; non-strings are
left unchanged. -/
def pk_parse_timestamp (lib : PyLib) (v : PyVal) : PyVal :=
  match v with
  | .pstr s =>
    match lib.fromisoformat s with
    | some d => .pdt d
    | none =>
      match lib.strptime s "%Y.%m.%d-%H.%M.%S" with
      | some d => .pdt d
      | none => .pdt lib.utcnow
  | v => v

/-- A user-visible kill notification sent to a channel. -/
def killfeed_message (c : Nat) (e : Event) : String :=
  "kill message to channel " ++ toString c ++ " for killer " ++
    fieldStr e.killer_id

/-- The kill event as persisted by `process_kill_event`: timestamp parsed
(cogs/killfeed.py lines 736-751) and `server_id` stamped (line 754). -/
def stamped (env : KillfeedEnv) (e : Event) (ts : PyVal) : Event :=
  { e with timestamp := some (pk_parse_timestamp env.lib ts),
           server_id := some (.pstr env.server_id) }

/-- Model of `process_kill_event` (cogs/killfeed.py lines 733-877).  The
whole body runs inside one `try`/`except Exception` (lines 735 and 876), so
the function never raises towards its caller; an absent `timestamp` key
makes the initial indexing raise `KeyError`, caught by that handler before
anything is persisted.  Returns the Event Sink (`db.kills`) after the call
together with the notification messages sent.  Stats updates and the
economy embed edits after the insert do not touch `db.kills` and only
influence messages, so they are summarized by `post_insert_ok` and
`send_ok`. -/
def process_kill_event (env : KillfeedEnv) (channel : Option Nat) (e : Event)
    (sink : List Event) : List Event × List String :=
  match e.timestamp with
  | none => (sink, [])
  | some ts =>
    let e2 := stamped env e ts
    if env.insertOk e2 then
      let sink1 := sink ++ [e2]
      let isS := (pyGet e2.is_suicide (.pbool false)).truthy
      let stype := pyGet e2.suicide_type (.pstr "other")
      let suppressed : Bool := isS &&
        (match stype with
         | .pstr s =>
           match env.suicide_notifs.lookup s with
           | some b => !b
           | none => false
         | _ => false)
      if suppressed then (sink1, [])
      else if env.post_insert_ok e2 then
        match channel with
        | some c => if env.send_ok then (sink1, [killfeed_message c e2]) else (sink1, [])
        | none => (sink1, [])
      else (sink1, [])
    else (sink, [])

/-- The per-event loop of the killfeed monitor (cogs/killfeed.py lines
630-638): each `process_kill_event` call is wrapped in `try`/`except`, but
`process_kill_event` catches all its own exceptions, so `processed_events`
is incremented for every event of the batch.  Returns the sink, the
messages, and `processed_events`. -/
def process_batch_step (env : KillfeedEnv) (channel : Option Nat)
    (acc : List Event × List String × Nat) (ev : Event) :
    List Event × List String × Nat :=
  let r := process_kill_event env channel ev acc.1
  (r.1, acc.2.1 ++ r.2, acc.2.2 + 1)

/-- See `process_batch_step`: the loop folds over the parsed batch starting
from the current sink with no messages sent and `processed_events = 0`. -/
def process_batch (env : KillfeedEnv) (channel : Option Nat)
    (events : List Event) (sink : List Event) :
    List Event × List String × Nat :=
  events.foldl (process_batch_step env channel) (sink, [], 0)

/-- Mutable state of one killfeed monitor loop (cogs/killfeed.py lines
397-401, 549-550, 573-574): the persisted cursor `server.last_csv_line`,
the error counters and backoff interval, and the Event Sink `db.kills`. -/
structure MonState where
  last_line : Nat
  consecutive_errors : Nat
  reconnect_attempts : Nat
  backoff_time : Nat
  sink : List Event
deriving DecidableEq, Repr

/-- What the environment does during one iteration of the killfeed monitor
loop (cogs/killfeed.py lines 552-683):
`noCsvFile` - `get_latest_csv_file` found nothing;
`probeTimeout rc` - `get_file_size` raised `asyncio.TimeoutError`, with `rc`
the result of the reconnect attempt;
`probeError` - `get_file_size` raised another exception;
`readFailure lines timeout rc` - the probe returned the file content
`lines`, then `read_file` raised (`timeout` distinguishes the
`TimeoutError` handler, `rc` the reconnect result);
`fileContent lines` - probe and read both succeeded on content `lines`;
`outerError rc` - an exception reached the loop's outer `except Exception`
(line 652); `rc = some b` is the result of `connect()` during the
reconnection attempt, `rc = none` means the reconnection block itself
raised after the backoff sleep;
`cancelled` - the task was cancelled. -/
inductive KillfeedInput where
  | noCsvFile
  | probeTimeout (rc : Bool)
  | probeError
  | readFailure (lines : List String) (timeout : Bool) (rc : Bool)
  | fileContent (lines : List String)
  | outerError (rc : Option Bool)
  | cancelled

/-- Result of one loop iteration: the state afterwards, whether the loop
breaks, the backoff sleep applied in the reconnection branch (line 662), and
the notification messages sent. -/
structure StepOut where
  state : MonState
  halt : Bool
  backoff_wait : Option Nat
  messages : List String
deriving Repr

/-- Model of one iteration of the killfeed monitor loop
(cogs/killfeed.py lines 552-683).  On a successful probe the error counters
reset and `backoff_time` returns to its base value 5 (lines 583-587); when
`total_lines <= last_line` the iteration sleeps and continues without
touching the cursor (lines 589-592); otherwise the new lines are read, the
batch is processed, and the cursor advances by the batch's line count when
`processed_events > 0 or len(kill_events) == 0` (lines 640-643).  The outer
error branch (lines 652-680) counts consecutive errors and, from the fifth
onwards, sleeps `backoff_time` and attempts a reconnect while fewer than 10
attempts were made, doubling `backoff_time` up to 60 on a successful
reconnect; exceeding 10 attempts breaks the loop. -/
def killfeed_step (env : KillfeedEnv) (channel : Option Nat) (s : MonState)
    (input : KillfeedInput) : StepOut :=
  match input with
  | .noCsvFile => ⟨s, false, none, []⟩
  | .probeTimeout rc =>
    ⟨{ s with consecutive_errors :=
        if rc then s.consecutive_errors else s.consecutive_errors + 1 },
      false, none, []⟩
  | .probeError =>
    ⟨{ s with consecutive_errors := s.consecutive_errors + 1 }, false, none, []⟩
  | .readFailure lines timeout rc =>
    let s1 := { s with consecutive_errors := 0, reconnect_attempts := 0,
                       backoff_time := 5 }
    if fileLineCount lines ≤ s.last_line then ⟨s1, false, none, []⟩
    else if timeout then
      ⟨{ s1 with consecutive_errors := if rc then 0 else 1 }, false, none, []⟩
    else
      ⟨{ s1 with consecutive_errors := 1 }, false, none, []⟩
  | .fileContent lines =>
    let s1 := { s with consecutive_errors := 0, reconnect_attempts := 0,
                       backoff_time := 5 }
    if fileLineCount lines ≤ s.last_line then ⟨s1, false, none, []⟩
    else
      let new_lines := readLines lines s.last_line none
      if new_lines.isEmpty then ⟨s1, false, none, []⟩
      else
        let kill_events := parse_kill_lines new_lines
        let r := process_batch env channel kill_events s1.sink
        let s2 := { s1 with sink := r.1 }
        let s3 :=
          if 0 < r.2.2 ∨ kill_events = [] then
            { s2 with last_line := s.last_line + new_lines.length }
          else s2
        ⟨{ s3 with consecutive_errors := 0 }, false, none, r.2.1⟩
  | .outerError rc =>
    let ce := s.consecutive_errors + 1
    if 5 ≤ ce then
      if s.reconnect_attempts < 10 then
        match rc with
        | some true =>
          ⟨{ s with consecutive_errors := 0,
                    backoff_time := min (s.backoff_time * 2) 60,
                    reconnect_attempts := s.reconnect_attempts + 1 },
            false, some s.backoff_time, []⟩
        | some false =>
          ⟨{ s with consecutive_errors := ce,
                    reconnect_attempts := s.reconnect_attempts + 1 },
            false, some s.backoff_time, []⟩
        | none =>
          ⟨{ s with consecutive_errors := ce }, false, some s.backoff_time, []⟩
      else ⟨{ s with consecutive_errors := ce }, true, none, []⟩
    else ⟨{ s with consecutive_errors := ce }, false, none, []⟩
  | .cancelled => ⟨s, true, none, []⟩

/-- One fold step of `killfeed_run`. -/
def killfeed_run_step (env : KillfeedEnv) (channel : Option Nat)
    (acc : MonState × List Nat) (inp : KillfeedInput) : MonState × List Nat :=
  let o := killfeed_step env channel acc.1 inp
  (o.state, acc.2 ++ o.backoff_wait.toList)

/-- Folding a list of iteration inputs through the killfeed loop, collecting
the backoff sleeps that were applied. -/
def killfeed_run (env : KillfeedEnv) (channel : Option Nat) (s : MonState)
    (inputs : List KillfeedInput) : MonState × List Nat :=
  inputs.foldl (killfeed_run_step env channel) (s, [])

/-- Folding the loop from an arbitrary sleep accumulator shifts the result
of folding from the empty accumulator. -/
theorem killfeed_run_shift (env : KillfeedEnv) (ch : Option Nat) :
    ∀ (inputs : List KillfeedInput) (s : MonState) (acc : List Nat),
      inputs.foldl (killfeed_run_step env ch) (s, acc) =
        ((killfeed_run env ch s inputs).1,
         acc ++ (killfeed_run env ch s inputs).2)
  | [], s, acc => by simp [killfeed_run]
  | inp :: inputs, s, acc => by
    simp only [killfeed_run, List.foldl_cons, killfeed_run_step]
    rw [killfeed_run_shift env ch inputs, killfeed_run_shift env ch inputs]
    simp [List.append_assoc]

/-- Unfolding one iteration of `killfeed_run`. -/
theorem killfeed_run_cons (env : KillfeedEnv) (ch : Option Nat)
    (inp : KillfeedInput) (inputs : List KillfeedInput) (s : MonState) :
    killfeed_run env ch s (inp :: inputs) =
      ((killfeed_run env ch (killfeed_step env ch s inp).state inputs).1,
       (killfeed_step env ch s inp).backoff_wait.toList ++
         (killfeed_run env ch (killfeed_step env ch s inp).state inputs).2) := by
  simp only [killfeed_run, List.foldl_cons, killfeed_run_step]
  rw [killfeed_run_shift env ch inputs]
  simp [killfeed_run]

/-- Pre-loop configuration checks of `start_killfeed_monitor`
(cogs/killfeed.py lines 403-444): the monitor returns before its loop only
when the guild has no server documents, the guild is not in the bot cache,
or the server record is missing; a missing killfeed channel merely clears
`channel_configured` and the monitor proceeds (lines 427-444). -/
def killfeed_prestart (has_server_docs guild_in_cache server_found : Bool)
    (channel : Option Nat) : Option (Option Nat) :=
  if !has_server_docs then none
  else if !guild_in_cache then none
  else if !server_found then none
  else some channel

/-- Environment oracle for the log-processor pipeline
(cogs/log_processor.py): the standard-library interface, the fallback hash
of `generate_event_hash`, and whether the database operations of one
`_process_*` call succeed for a given event. -/
structure LogEnv where
  lib : PyLib
  fh : Event → Int
  dbOk : Event → Bool

/-- The `kill_doc` persisted by `LogProcessorCog._process_kill_event`
(cogs/log_processor.py lines 482-495). -/
def kill_doc (server_id killer_id killer_name victim_id victim_name weapon
    distance timestamp : PyVal) (isS : Bool) : Event :=
  { server_id := some server_id, killer_id := some killer_id,
    killer_name := some killer_name, victim_id := some victim_id,
    victim_name := some victim_name, weapon := some weapon,
    distance := some distance, timestamp := some timestamp,
    is_suicide := some (.pbool isS), source := some (.pstr "log") }

/-- Model of `LogProcessorCog._process_kill_event`
(cogs/log_processor.py lines 409-501).  Returns the boolean result and the
`db.kills` collection after the call.  A falsy `server_id` or `victim_id`
(or `killer_id` for a non-suicide) aborts with `False`; a suicide only
updates the victim's stats and inserts nothing into `db.kills`; a kill
inserts `kill_doc`.  Database errors are caught by the function's own
`except` and reported as `False`; `dbOk` summarizes them. -/
def lp_process_kill_event (env : LogEnv) (e : Event) (kills : List Event) :
    Bool × List Event :=
  let server_id := pyGet e.server_id .pnone
  if !server_id.truthy then (false, kills)
  else
    let killer_id := pyGet e.killer_id (.pstr "")
    let killer_name := pyGet e.killer_name (.pstr "Unknown")
    let victim_id := pyGet e.victim_id (.pstr "")
    let victim_name := pyGet e.victim_name (.pstr "Unknown")
    let weapon := pyGet e.weapon (.pstr "Unknown")
    let distance := pyGet e.distance (.pint 0)
    let ts0 := pyGet e.timestamp (.pdt env.lib.utcnow)
    let timestamp :=
      match ts0 with
      | .pstr s =>
        match env.lib.fromisoformat s with
        | some d => PyVal.pdt d
        | none => PyVal.pdt env.lib.utcnow
      | v => v
    let isS := killer_id.truthy && victim_id.truthy && killer_id.pyEq victim_id
    if !victim_id.truthy then (false, kills)
    else if isS then
      if env.dbOk e then (true, kills) else (false, kills)
    else if !killer_id.truthy then (false, kills)
    else if env.dbOk e then
      (true, kills ++ [kill_doc server_id killer_id killer_name victim_id
        victim_name weapon distance timestamp isS])
    else (false, kills)

/-- The `connection_doc` persisted by
`LogProcessorCog._process_connection_event`
(cogs/log_processor.py lines 542-552). -/
def connection_doc (server_id player_id player_name action timestamp : PyVal) :
    Event :=
  { server_id := some server_id, player_id := some player_id,
    player_name := some player_name, action := some action,
    timestamp := some timestamp, source := some (.pstr "log") }

/-- Model of `LogProcessorCog._process_connection_event`
(cogs/log_processor.py lines 503-558). -/
def lp_process_connection_event (env : LogEnv) (e : Event)
    (conns : List Event) : Bool × List Event :=
  let server_id := pyGet e.server_id .pnone
  if !server_id.truthy then (false, conns)
  else
    let player_id := pyGet e.player_id (.pstr "")
    let player_name := pyGet e.player_name (.pstr "Unknown")
    let action := pyGet e.action (.pstr "")
    let ts0 := pyGet e.timestamp (.pdt env.lib.utcnow)
    let timestamp :=
      match ts0 with
      | .pstr s =>
        match env.lib.fromisoformat s with
        | some d => PyVal.pdt d
        | none => PyVal.pdt env.lib.utcnow
      | v => v
    if !player_id.truthy then (false, conns)
    else if env.dbOk e then
      (true, conns ++ [connection_doc server_id player_id player_name action timestamp])
    else (false, conns)

/-- The sinks written by the log-processor pipeline: the database
collections `kills`, `connections`, `missions` and `game_events`. -/
structure LogSinks where
  kills : List Event := []
  connections : List Event := []
  missions : List Event := []
  game_events : List Event := []
deriving DecidableEq, Repr

/-- Model of `LogProcessorCog._process_game_event`
(cogs/log_processor.py lines 560-623): a mission event inserts into
`db.missions`, the listed world events insert into `db.game_events`, and
any other `event_type` inserts nothing but still returns `True`. -/
def lp_process_game_event (env : LogEnv) (e : Event) (sinks : LogSinks) :
    Bool × LogSinks :=
  let server_id := pyGet e.server_id .pnone
  if !server_id.truthy then (false, sinks)
  else
    let event_type := pyGet e.event_type (.pstr "")
    let event_id := pyGet e.event_id (.pstr "")
    let location := pyGet e.location (.pstr "")
    let ts0 := pyGet e.timestamp (.pdt env.lib.utcnow)
    let timestamp :=
      match ts0 with
      | .pstr s =>
        match env.lib.fromisoformat s with
        | some d => PyVal.pdt d
        | none => PyVal.pdt env.lib.utcnow
      | v => v
    if event_type.pyEq (.pstr "mission") then
      let mission_name := pyGet e.mission_name (.pstr "")
      let difficulty := pyGet e.difficulty (.pstr "")
      if env.dbOk e then
        (true, { sinks with missions := sinks.missions ++
          [{ server_id := some server_id, mission_name := some mission_name,
             difficulty := some difficulty, location := some location,
             timestamp := some timestamp, source := some (.pstr "log") }] })
      else (false, sinks)
    else if pyInStrList event_type ["airdrop", "helicrash", "trader", "convoy"] then
      if env.dbOk e then
        (true, { sinks with game_events := sinks.game_events ++
          [{ server_id := some server_id, event_type := some event_type,
             event_id := some event_id, location := some location,
             timestamp := some timestamp, source := some (.pstr "log") }] })
      else (false, sinks)
    else if env.dbOk e then (true, sinks) else (false, sinks)

/-- State threaded through the log-processor entry loop: the process-wide
coordinator, the database sinks, and the `events_processed` counter of
`_process_server_logs`. -/
structure LogState where
  coord : CoordState := {}
  sinks : LogSinks := {}
  events_processed : Nat := 0
deriving Repr

/-- The normalized entry with the server id stamped onto it
(cogs/log_processor.py lines 216-220), as handed to the duplicate check;
`none` when `normalize_event_data` raises. -/
def norm_stamped (lib : PyLib) (server_id : String) (entry : Event) :
    Option Event :=
  (normalize_event_data lib entry).map
    (fun n => { n with server_id := some (.pstr server_id) })

/-- Model of the per-entry body of `LogProcessorCog._process_server_logs`
(cogs/log_processor.py lines 214-243): normalize the entry, stamp the
server id onto it, consult the process-wide deduplication coordinator, and
only when the event is not a duplicate update the coordinator's log
timestamp, categorize the event and dispatch it to the matching
`_process_*` handler, counting it as processed.  The `_process_*` handlers
catch their own exceptions, so the surrounding `except` at line 244 fires
only when `normalize_event_data` itself raises (uncaught `OverflowError`
from the distance conversion): the entry is then logged and skipped with
the state untouched. -/
def log_process_entry (env : LogEnv) (server_id : String) (st : LogState)
    (entry : Event) : LogState :=
  match norm_stamped env.lib server_id entry with
  | none => st
  | some normalized =>
  let r := is_duplicate_event env.fh normalized st.coord
  if r.1 then { st with coord := r.2 }
  else
    let coord1 :=
      match normalized.timestamp with
      | some (.pdt d) => update_log_timestamp r.2 server_id d
      | _ => r.2
    let cat := categorize_event normalized
    if cat = "kill" ∨ cat = "suicide" then
      let k := lp_process_kill_event env normalized st.sinks.kills
      { coord := coord1, sinks := { st.sinks with kills := k.2 },
        events_processed := st.events_processed + 1 }
    else if cat = "connection" then
      let c := lp_process_connection_event env normalized st.sinks.connections
      { coord := coord1, sinks := { st.sinks with connections := c.2 },
        events_processed := st.events_processed + 1 }
    else if cat = "mission" ∨ cat = "game_event" then
      let g := lp_process_game_event env normalized st.sinks
      { coord := coord1, sinks := g.2,
        events_processed := st.events_processed + 1 }
    else { st with coord := coord1 }

/-- Cursor effect of one iteration of the events monitor in
`temp_extract/NewBeta-main/cogs/events.py`: the no-new-lines guard at lines
1326-1329 (`total_lines <= last_line` sleeps and continues, leaving the
cursor untouched) and the conditional advancement at lines 1405-1408
(`processed_events > 0 or processed_connections > 0 or (len(events) == 0
and len(connections) == 0)` advances by the read line count). -/
def events_cursor_after_iteration (last_line total new_len processed_events
    processed_connections events_count connections_count : Nat) : Nat :=
  if total ≤ last_line then last_line
  else if 0 < processed_events ∨ 0 < processed_connections ∨
      (events_count = 0 ∧ connections_count = 0) then
    last_line + new_len
  else last_line

/-- A concrete standard-library interface for closed counterexamples and
witnesses: every parse fails and the ingestion time is one fixed instant. -/
def trivLib : PyLib :=
  { fromisoformat := fun _ => none, strptime := fun _ _ => none,
    float_int := fun _ => .valueError, utcnow := ⟨2025, 5, 1, 12, 0, 0⟩ }

/-- A standard-library interface whose `int(float(s))` raises an uncaught
`OverflowError` exactly on the string `"inf"`, for exhibiting the error
path of `normalize_event_data`. -/
def ovLib : PyLib :=
  { trivLib with
    float_int := fun s => if s = "inf" then .overflowError else .valueError }

/-- A concrete fallback hash for closed counterexamples and witnesses. -/
def trivFh : Event → Int := fun _ => 0

/-- A concrete killfeed environment: all database operations succeed. -/
def trivEnv : KillfeedEnv :=
  { lib := trivLib, insertOk := fun _ => true, post_insert_ok := fun _ => true,
    send_ok := true, suicide_notifs := [], server_id := "s1" }

/-- A concrete log-processor environment: all database operations succeed. -/
def trivLogEnv : LogEnv :=
  { lib := trivLib, fh := trivFh, dbOk := fun _ => true }

/-- Claim C6 counterexample: a kill-like event whose `killer_id` equals its
`victim_id` — both the empty string — is categorized `kill`, not `suicide`,
because `categorize_event` additionally requires both identifiers to be
truthy (utils/parser_utils.py line 298). -/
theorem c6_counterexample :
    (Event.killer_id { killer_id := some (.pstr ""), victim_id := some (.pstr "") } =
      Event.victim_id { killer_id := some (.pstr ""), victim_id := some (.pstr "") })
    ∧ categorize_event { killer_id := some (.pstr ""), victim_id := some (.pstr "") } = "kill" := by
  decide

/-- Claim C6 as amended: a kill-like raw event (both identifier keys
present, no explicit `event_type`) with equal string identifiers is
promoted to `suicide` exactly when the shared identifier is non-empty
(truthy); with the empty string it is categorized `kill`.  The
log-processor's `_process_kill_event` applies the same truthiness condition
(cogs/log_processor.py lines 440-443), modelled by the `isS` binding of
`lp_process_kill_event`. -/
theorem categorize_suicide_promotion (e : Event) (s : String)
    (ht : e.event_type = none)
    (hk : e.killer_id = some (.pstr s)) (hv : e.victim_id = some (.pstr s)) :
    categorize_event e = if s = "" then "kill" else "suicide" := by
  unfold categorize_event categorize_rest
  rw [ht, hk, hv]
  by_cases hs : s = "" <;>
    simp [hs, PyVal.truthy, PyVal.pyEq, String.isEmpty_iff]

/-- Witness for `categorize_suicide_promotion` at a concrete non-empty
identifier. -/
theorem categorize_suicide_promotion_witness :
    categorize_event { killer_id := some (.pstr "p1"), victim_id := some (.pstr "p1") } =
      if "p1" = "" then "kill" else "suicide" :=
  categorize_suicide_promotion
    { killer_id := some (.pstr "p1"), victim_id := some (.pstr "p1") } "p1"
    rfl rfl rfl

/-- The distance conversion of `normalize_event_data` raises (an uncaught
`OverflowError` escaping `except (ValueError, TypeError)`,
utils/parser_utils.py lines 270-271) exactly when the `distance` key holds
a string whose `int(float(s))` conversion overflows. -/
theorem normalize_distance_eq_none_iff (lib : PyLib) (f : Option PyVal) :
    normalize_distance lib f = none ↔
      ∃ s, f = some (.pstr s) ∧ lib.float_int s = .overflowError := by
  rcases f with _ | v
  · simp [normalize_distance]
  · rcases v with _ | s | t | n | b
    · simp [normalize_distance]
    · rcases ho : lib.float_int s with n | _ | _ <;>
        simp [normalize_distance, ho]
    · simp [normalize_distance]
    · simp [normalize_distance]
    · simp [normalize_distance]

/-- Claim C7 counterexample: normalization is not total and the normalized
timestamp is not never-null: an event whose `distance` is the string
`"inf"` makes `int(float(s))` raise `OverflowError`, which the handler
`except (ValueError, TypeError)` at utils/parser_utils.py line 271 does not
catch, so `normalize_event_data` raises (modelled as `none`); an event
whose `timestamp` key is present but bound to `None` keeps `None` (only
string timestamps are parsed, line 215); and an absent `killer_name` key
stays absent rather than becoming the empty string (line 259 only rewrites
a present `None`). -/
theorem c7_counterexample :
    normalize_event_data ovLib { distance := some (.pstr "inf") } = none
    ∧ (normalize_event_data trivLib { timestamp := some .pnone }).map Event.timestamp =
        some (some .pnone)
    ∧ (normalize_event_data trivLib { timestamp := some .pnone }).map Event.killer_name =
        some none := by
  decide

/-- Claim C7 as amended: normalization raises exactly when the `distance`
key holds a string whose `int(float(s))` conversion overflows (e.g.
`"inf"`) — that `OverflowError` escapes the `except (ValueError,
TypeError)` handler — and returns normally on every other input.  On a
normal return: a string timestamp is parsed with ISO-8601 first, then the
game's native format `%Y.%m.%d-%H.%M.%S` (the first entry of
`common_formats`), and otherwise falls back to the ingestion time; an
absent timestamp key also receives the ingestion time; but a present
non-string value such as `None` passes through unchanged.  A name field
that is present and `None` becomes the empty string, while an absent name
key stays absent. -/
theorem normalize_event_data_amended (lib : PyLib) (e : Event) :
    (normalize_event_data lib e = none ↔
      ∃ s, e.distance = some (.pstr s) ∧ lib.float_int s = .overflowError)
    ∧ ∀ n, normalize_event_data lib e = some n →
      ((e.timestamp = none → n.timestamp = some (.pdt lib.utcnow))
      ∧ (∀ s d, e.timestamp = some (.pstr s) → lib.fromisoformat s = some d →
          n.timestamp = some (.pdt d))
      ∧ (∀ s d, e.timestamp = some (.pstr s) → lib.fromisoformat s = none →
          lib.strptime s "%Y.%m.%d-%H.%M.%S" = some d →
          n.timestamp = some (.pdt d))
      ∧ (∀ s, e.timestamp = some (.pstr s) → lib.fromisoformat s = none →
          (∀ fmt ∈ common_formats, lib.strptime s fmt = none) →
          n.timestamp = some (.pdt lib.utcnow))
      ∧ (e.killer_name = some .pnone → n.killer_name = some (.pstr ""))
      ∧ (e.victim_name = some .pnone → n.victim_name = some (.pstr ""))
      ∧ (e.player_name = some .pnone → n.player_name = some (.pstr ""))
      ∧ (e.killer_name = none → n.killer_name = none)) := by
  constructor
  · have h1 : normalize_event_data lib e = none ↔
        normalize_distance lib e.distance = none := by
      unfold normalize_event_data
      cases hnd : normalize_distance lib e.distance <;> simp
    exact h1.trans (normalize_distance_eq_none_iff lib e.distance)
  · intro n hn
    unfold normalize_event_data at hn
    cases hnd : normalize_distance lib e.distance with
    | none => rw [hnd] at hn; simp at hn
    | some dist =>
      rw [hnd] at hn
      simp only [Option.some.injEq] at hn
      subst hn
      refine ⟨?_, ?_, ?_, ?_, ?_, ?_, ?_, ?_⟩
      · intro h
        simp [normalize_timestamp, h]
      · intro s d h hiso
        simp [normalize_timestamp, h, hiso]
      · intro s d h hiso hnat
        simp [normalize_timestamp, h, hiso, common_formats,
          List.findSome?_cons, hnat]
      · intro s h hiso hall
        have g1 := hall "%Y.%m.%d-%H.%M.%S" (by simp [common_formats])
        have g2 := hall "%Y.%m.%d-%H.%M.%S:%f" (by simp [common_formats])
        have g3 := hall "%Y-%m-%d %H:%M:%S" (by simp [common_formats])
        have g4 := hall "%Y-%m-%d %H:%M:%S.%f" (by simp [common_formats])
        simp [normalize_timestamp, h, hiso, common_formats,
          List.findSome?_cons, g1, g2, g3, g4]
      · intro h
        simp [noneToEmpty, h]
      · intro h
        simp [noneToEmpty, h]
      · intro h
        simp [noneToEmpty, h]
      · intro h
        simp [noneToEmpty, h]

/-- Witness for `normalize_event_data_amended`: the raise clause at the
`"inf"` distance, and the absent-timestamp and present-`None` name clauses
at a concrete event. -/
theorem normalize_event_data_amended_witness :
    normalize_event_data ovLib { distance := some (.pstr "inf") } = none
    ∧ Event.timestamp ((normalize_event_data trivLib { killer_name := some .pnone }).getD {}) =
        some (.pdt trivLib.utcnow)
    ∧ Event.killer_name ((normalize_event_data trivLib { killer_name := some .pnone }).getD {}) =
        some (.pstr "") :=
  ⟨(normalize_event_data_amended ovLib { distance := some (.pstr "inf") }).1.mpr
      ⟨"inf", rfl, by decide⟩,
   ((normalize_event_data_amended trivLib { killer_name := some .pnone }).2
      ((normalize_event_data trivLib { killer_name := some .pnone }).getD {})
      (by decide)).1 rfl,
   ((normalize_event_data_amended trivLib { killer_name := some .pnone }).2
      ((normalize_event_data trivLib { killer_name := some .pnone }).getD {})
      (by decide)).2.2.2.2.1 rfl⟩

/-- The hash just added by `is_duplicate_event` survives the pruning of the
same call: pruning keeps a suffix that contains the newest element. -/
theorem mem_prune_append (l : List String) (h : String) :
    h ∈ prune_old_hashes (l ++ [h]) := by
  unfold prune_old_hashes
  by_cases h1 : 10000 < (l ++ [h]).length
  · have hlen : (l ++ [h]).length = l.length + 1 := by simp
    have hle : (l ++ [h]).length - 1000 ≤ l.length := by omega
    rw [if_pos h1, if_pos (by omega : 1000 < (l ++ [h]).length),
      List.drop_append_of_le_length hle]
    simp
  · rw [if_neg h1]
    simp

/-- A concrete kill event shared by the C3 counterexample and witness. -/
def c3_base : Event :=
  { timestamp := some (.pdt ⟨2025, 5, 1, 12, 0, 0⟩),
    killer_id := some (.pstr "A"), killer_name := some (.pstr "Alice"),
    victim_id := some (.pstr "B"), victim_name := some (.pstr "Bob"),
    weapon := some (.pstr "AK") }

/-- Claim C3 counterexample: two kill events identical except for
`server_id` receive the same fingerprint — `generate_event_hash` builds the
kill hash from timestamp, killer, victim and weapon only
(utils/parser_utils.py line 48) — and the second event is then suppressed
as a duplicate of the first even though it comes from a different
server. -/
theorem c3_counterexample :
    (Event.server_id { c3_base with server_id := some (.pstr "srvONE") } ≠
      Event.server_id { c3_base with server_id := some (.pstr "srvTWO") })
    ∧ generate_event_hash trivFh { c3_base with server_id := some (.pstr "srvONE") } =
        generate_event_hash trivFh { c3_base with server_id := some (.pstr "srvTWO") }
    ∧ (is_duplicate_event trivFh { c3_base with server_id := some (.pstr "srvTWO") }
        (is_duplicate_event trivFh { c3_base with server_id := some (.pstr "srvONE") } {}).2).1 = true := by
  decide

/-- Claim C3 as amended: the kill-event fingerprint does not include
`server_id` — it is built from timestamp, killer id, victim id and weapon
alone — so any two kill events agreeing on those fields get equal
fingerprints whatever their `server_id` fields are, and once the first has
been admitted by the coordinator, the second is suppressed as a duplicate
even when it belongs to a different server. -/
theorem kill_hash_ignores_server_id (fh : Event → Int) (e : Event)
    (sid1 sid2 : Option PyVal) (st : CoordState)
    (hk : (Event.killer_id e).isSome = true) (hv : (Event.victim_id e).isSome = true) :
    generate_event_hash fh { e with server_id := sid1 } =
      generate_event_hash fh { e with server_id := sid2 }
    ∧ ((is_duplicate_event fh { e with server_id := sid1 } st).1 = false →
        (is_duplicate_event fh { e with server_id := sid2 }
          (is_duplicate_event fh { e with server_id := sid1 } st).2).1 = true) := by
  have hhash : ∀ sid : Option PyVal,
      generate_event_hash fh { e with server_id := sid } =
        generate_event_hash fh { e with server_id := sid2 } := by
    intro sid
    unfold generate_event_hash
    simp [hk, hv]
  refine ⟨hhash sid1, ?_⟩
  intro hfirst
  have hnotmem : generate_event_hash fh { e with server_id := sid1 } ∉ st.seen := by
    intro hmem
    unfold is_duplicate_event at hfirst
    simp [hmem] at hfirst
  have hstep : is_duplicate_event fh { e with server_id := sid1 } st =
      (false, { st with seen := prune_old_hashes (st.seen ++
        [generate_event_hash fh { e with server_id := sid1 }]) }) := by
    unfold is_duplicate_event
    simp [hnotmem]
  have hmem2 : generate_event_hash fh { e with server_id := sid2 } ∈
      prune_old_hashes (st.seen ++ [generate_event_hash fh { e with server_id := sid1 }]) := by
    rw [hhash sid1]
    exact mem_prune_append st.seen (generate_event_hash fh { e with server_id := sid2 })
  rw [hstep]
  unfold is_duplicate_event
  simp [hmem2]

/-- Witness for `kill_hash_ignores_server_id` at the concrete C3 events. -/
theorem kill_hash_ignores_server_id_witness :
    (is_duplicate_event trivFh { c3_base with server_id := some (.pstr "srvTWO") }
      (is_duplicate_event trivFh { c3_base with server_id := some (.pstr "srvONE") } {}).2).1 = true :=
  (kill_hash_ignores_server_id trivFh c3_base (some (.pstr "srvONE"))
    (some (.pstr "srvTWO")) {} rfl rfl).2 (by decide)

/-- Claim C2 counterexample: with a stored cursor of 100 and a probed file
of 2 lines (`total_lines < last_line`, i.e. the file was rotated or
truncated), the killfeed iteration leaves the cursor at 100 instead of
resetting it to 0 — the monitor merely sleeps and continues
(cogs/killfeed.py lines 589-592). -/
theorem c2_counterexample :
    (killfeed_step trivEnv none ⟨100, 0, 0, 5, []⟩ (.fileContent ["a", "b"])).state.last_line = 100
    ∧ (killfeed_step trivEnv none ⟨100, 0, 0, 5, []⟩ (.fileContent ["a", "b"])).state.sink = [] := by
  decide

/-- Claim C2 as amended: when the probed total line count is at most the
stored cursor (including the rotation and truncation case
`total_lines < last_line`), the iteration is a no-op — the cursor keeps its
old value and is never reset to 0, nothing is read or delivered, and the
loop just continues; the events monitor of
temp_extract/NewBeta-main/cogs/events.py behaves the same way, so after a
rotation to a shorter file both monitors stall until the new file grows
past the old cursor. -/
theorem no_rotation_reset (env : KillfeedEnv) (ch : Option Nat) (s : MonState)
    (lines : List String) (h : fileLineCount lines ≤ s.last_line) :
    (killfeed_step env ch s (.fileContent lines)).state.last_line = s.last_line
    ∧ (killfeed_step env ch s (.fileContent lines)).state.sink = s.sink
    ∧ (killfeed_step env ch s (.fileContent lines)).halt = false
    ∧ ∀ nl pe pc ec cc,
        events_cursor_after_iteration s.last_line (fileLineCount lines) nl pe pc ec cc =
          s.last_line := by
  refine ⟨?_, ?_, ?_, ?_⟩
  · simp [killfeed_step, h]
  · simp [killfeed_step, h]
  · simp [killfeed_step, h]
  · intro nl pe pc ec cc
    simp [events_cursor_after_iteration, h]

/-- Witness for `no_rotation_reset` at the concrete C2 state. -/
theorem no_rotation_reset_witness :
    (killfeed_step trivEnv none ⟨100, 0, 0, 5, []⟩ (.fileContent ["a", "b"])).state.last_line = 100
    ∧ events_cursor_after_iteration 100 (fileLineCount ["a", "b"]) 2 0 0 1 0 = 100 :=
  ⟨(no_rotation_reset trivEnv none ⟨100, 0, 0, 5, []⟩ ["a", "b"] (by decide)).1,
   (no_rotation_reset trivEnv none ⟨100, 0, 0, 5, []⟩ ["a", "b"] (by decide)).2.2.2 2 0 0 1 0⟩

/-- Folding the batch loop from an arbitrary accumulator shifts the result
of folding from the initial accumulator. -/
theorem process_batch_shift (env : KillfeedEnv) (ch : Option Nat) :
    ∀ (evs : List Event) (sk : List Event) (ms : List String) (n : Nat),
      evs.foldl (process_batch_step env ch) (sk, ms, n) =
        ((process_batch env ch evs sk).1,
         ms ++ (process_batch env ch evs sk).2.1,
         n + (process_batch env ch evs sk).2.2)
  | [], sk, ms, n => by simp [process_batch]
  | e :: evs, sk, ms, n => by
    simp only [process_batch, List.foldl_cons, process_batch_step]
    rw [process_batch_shift env ch evs, process_batch_shift env ch evs]
    simp [List.append_assoc]
    omega

/-- Unfolding one event of the batch loop. -/
theorem process_batch_cons (env : KillfeedEnv) (ch : Option Nat) (e : Event)
    (evs : List Event) (sk : List Event) :
    process_batch env ch (e :: evs) sk =
      ((process_batch env ch evs (process_kill_event env ch e sk).1).1,
       (process_kill_event env ch e sk).2 ++
         (process_batch env ch evs (process_kill_event env ch e sk).1).2.1,
       1 + (process_batch env ch evs (process_kill_event env ch e sk).1).2.2) := by
  simp only [process_batch, List.foldl_cons, process_batch_step]
  rw [process_batch_shift env ch evs]
  simp [process_batch]

/-- Because `process_kill_event` catches its own exceptions, the batch loop
counts every event of the batch as processed. -/
theorem process_batch_count (env : KillfeedEnv) (ch : Option Nat) :
    ∀ (evs : List Event) (sk : List Event),
      (process_batch env ch evs sk).2.2 = evs.length
  | [], sk => by simp [process_batch]
  | e :: evs, sk => by
    rw [process_batch_cons, process_batch_count env ch evs]
    simp [Nat.add_comm]

/-- The Event Sink effect of one `process_kill_event` call: the event
(with parsed timestamp and stamped server id) is appended to `db.kills`
exactly when the insert succeeds; the notification channel plays no role in
this. -/
theorem process_kill_event_sink_char (env : KillfeedEnv) (ch : Option Nat)
    (e : Event) (sk : List Event) :
    (process_kill_event env ch e sk).1 =
      match e.timestamp with
      | none => sk
      | some ts =>
        if env.insertOk (stamped env e ts) then sk ++ [stamped env e ts]
        else sk := by
  cases h : e.timestamp with
  | none => simp [process_kill_event, h]
  | some ts =>
    simp only [process_kill_event, h]
    by_cases hi : env.insertOk (stamped env e ts) = true
    · simp only [hi, if_true]
      repeat' split
      all_goals rfl
    · simp [hi]

/-- Without a configured channel, `process_kill_event` sends no messages. -/
theorem process_kill_event_none_msgs (env : KillfeedEnv) (e : Event)
    (sk : List Event) :
    (process_kill_event env none e sk).2 = [] := by
  cases h : e.timestamp with
  | none => simp [process_kill_event, h]
  | some ts =>
    simp only [process_kill_event, h]
    repeat' split
    all_goals rfl

/-- The Event Sink after a batch does not depend on the notification
channel. -/
theorem process_batch_sink_indep (env : KillfeedEnv) (ch : Option Nat) :
    ∀ (evs : List Event) (sk : List Event),
      (process_batch env ch evs sk).1 = (process_batch env none evs sk).1
  | [], sk => by simp [process_batch]
  | e :: evs, sk => by
    rw [process_batch_cons, process_batch_cons]
    have hpke : (process_kill_event env ch e sk).1 = (process_kill_event env none e sk).1 := by
      rw [process_kill_event_sink_char, process_kill_event_sink_char]
    simp only []
    rw [hpke, process_batch_sink_indep env ch evs]

/-- Without a configured channel, a batch sends no messages at all. -/
theorem process_batch_none_msgs (env : KillfeedEnv) :
    ∀ (evs : List Event) (sk : List Event),
      (process_batch env none evs sk).2.1 = []
  | [], sk => by simp [process_batch]
  | e :: evs, sk => by
    rw [process_batch_cons]
    simp [process_kill_event_none_msgs, process_batch_none_msgs env evs]

/-- Claim C4 counterexample: with a single new line parsing to one kill
event whose database insert fails, the Event Sink accepts nothing, yet the
cursor still advances by the full line count — `process_kill_event`
swallows its own exceptions (cogs/killfeed.py lines 735, 876), so
`processed_events` counts the event as processed and the advancement
condition at line 641 holds. -/
theorem c4_counterexample :
    parse_kill_lines (readLines ["2025.05.01-12.00.00;Alice;A;Bob;B;AK;100"] 0 none) ≠ []
    ∧ (killfeed_step { trivEnv with insertOk := fun _ => false } none ⟨0, 0, 0, 5, []⟩
        (.fileContent ["2025.05.01-12.00.00;Alice;A;Bob;B;AK;100"])).state.sink = []
    ∧ (killfeed_step { trivEnv with insertOk := fun _ => false } none ⟨0, 0, 0, 5, []⟩
        (.fileContent ["2025.05.01-12.00.00;Alice;A;Bob;B;AK;100"])).state.last_line = 1 := by
  decide

/-- Characterization of a killfeed iteration that finds new lines: the
counters reset, the batch is processed, and the cursor advances by the read
line count — the advancement guard `processed_events > 0 or
len(kill_events) == 0` is always true because `processed_events` counts
every event of the batch. -/
theorem killfeed_step_fileContent_new (env : KillfeedEnv) (ch : Option Nat)
    (s : MonState) (lines : List String)
    (h : s.last_line < fileLineCount lines) :
    killfeed_step env ch s (.fileContent lines) =
      ⟨⟨s.last_line + (readLines lines s.last_line none).length, 0, 0, 5,
        (process_batch env ch (parse_kill_lines (readLines lines s.last_line none)) s.sink).1⟩,
       false, none,
       (process_batch env ch (parse_kill_lines (readLines lines s.last_line none)) s.sink).2.1⟩ := by
  have hlen : (readLines lines s.last_line none).length =
      fileLineCount lines - s.last_line := by
    simp [readLines, fileLineCount]
  have hne : (readLines lines s.last_line none).isEmpty = false := by
    have hlz : (readLines lines s.last_line none).length ≠ 0 := by
      rw [hlen]; unfold fileLineCount at h ⊢; omega
    rcases hq : readLines lines s.last_line none with _ | ⟨a, l⟩
    · rw [hq] at hlz; simp at hlz
    · rfl
  have h1 : ¬ (fileLineCount lines ≤ s.last_line) := by omega
  have hcond : 0 < (process_batch env ch
      (parse_kill_lines (readLines lines s.last_line none)) s.sink).2.2 ∨
      parse_kill_lines (readLines lines s.last_line none) = [] := by
    rw [process_batch_count]
    by_cases hk : parse_kill_lines (readLines lines s.last_line none) = []
    · right; exact hk
    · left; exact List.length_pos.mpr hk
  simp only [killfeed_step, if_neg h1, hne, Bool.false_eq_true, if_false]
  split
  · rfl
  · rename_i hbad
    exact absurd hcond hbad

/-- Claim C4 as amended: in every iteration whose probe finds new lines,
the single `readLines` call returns exactly the `total - last_line` new
lines and the cursor advances by exactly that count, ending at the probed
total — but unconditionally with respect to Event-Sink acceptance (the
environment `env`, including a sink that rejects every insert, is
universally quantified): per-event processing catches its own exceptions,
so the batch counts as processed even when every delivery failed.  In
particular with `last_line = 100` and a 103-line file the read returns 3
lines and the cursor becomes 103. -/
theorem cursor_advances_by_readLines (env : KillfeedEnv) (ch : Option Nat)
    (s : MonState) (lines : List String) (h : s.last_line < fileLineCount lines) :
    (readLines lines s.last_line none).length = fileLineCount lines - s.last_line
    ∧ (killfeed_step env ch s (.fileContent lines)).state.last_line =
        s.last_line + (readLines lines s.last_line none).length
    ∧ (killfeed_step env ch s (.fileContent lines)).state.last_line = fileLineCount lines := by
  have hlen : (readLines lines s.last_line none).length =
      fileLineCount lines - s.last_line := by
    simp [readLines, fileLineCount]
  rw [killfeed_step_fileContent_new env ch s lines h]
  refine ⟨hlen, rfl, ?_⟩
  show s.last_line + (readLines lines s.last_line none).length = fileLineCount lines
  rw [hlen]
  unfold fileLineCount at h ⊢
  omega

/-- The 103-line remote file of the C4 scenario: 100 already-processed
lines followed by 3 new kill-feed lines. -/
def c4_lines : List String :=
  List.replicate 100 "old" ++
    ["2025.05.01-12.00.00;Alice;A;Bob;B;AK;100",
     "2025.05.01-12.00.01;Carol;C;Dave;D;MK;50",
     "2025.05.01-12.00.02;Eve;E;Frank;F;SV;75"]

/-- Witness for `cursor_advances_by_readLines`: cursor 100, 103-line file,
`readLines` returns exactly the 3 new lines, cursor becomes 103. -/
theorem cursor_advances_by_readLines_witness :
    100 < fileLineCount c4_lines
    ∧ readLines c4_lines 100 none =
        ["2025.05.01-12.00.00;Alice;A;Bob;B;AK;100",
         "2025.05.01-12.00.01;Carol;C;Dave;D;MK;50",
         "2025.05.01-12.00.02;Eve;E;Frank;F;SV;75"]
    ∧ (killfeed_step trivEnv none ⟨100, 0, 0, 5, []⟩ (.fileContent c4_lines)).state.last_line =
        fileLineCount c4_lines
    ∧ fileLineCount c4_lines = 103 :=
  ⟨by decide, by decide,
   (cursor_advances_by_readLines trivEnv none ⟨100, 0, 0, 5, []⟩ c4_lines (by decide)).2.2,
   by decide⟩

/-- Claim C9: the killfeed monitor's behaviour towards its state — cursor,
error counters, backoff and the Event Sink — and its decision to continue
or break are identical with and without a configured notification channel;
without a channel no messages are sent; and the pre-loop configuration
checks never abort because of a missing channel.  Only the user-visible
notification step depends on the channel. -/
theorem killfeed_channel_independence :
    (∀ (env : KillfeedEnv) (s : MonState) (input : KillfeedInput) (c : Nat),
      (killfeed_step env (some c) s input).state = (killfeed_step env none s input).state
      ∧ (killfeed_step env (some c) s input).halt = (killfeed_step env none s input).halt)
    ∧ (∀ (env : KillfeedEnv) (s : MonState) (input : KillfeedInput),
        (killfeed_step env none s input).messages = [])
    ∧ (∀ (hs gc sf : Bool) (ch : Option Nat),
        (killfeed_prestart hs gc sf ch).isSome = (killfeed_prestart hs gc sf none).isSome) := by
  refine ⟨?_, ?_, ?_⟩
  · intro env s input c
    cases input with
    | noCsvFile => exact ⟨rfl, rfl⟩
    | probeTimeout rc => exact ⟨rfl, rfl⟩
    | probeError => exact ⟨rfl, rfl⟩
    | readFailure lines timeout rc => exact ⟨rfl, rfl⟩
    | fileContent lines =>
      by_cases h1 : fileLineCount lines ≤ s.last_line
      · simp [killfeed_step, h1]
      · by_cases h2 : s.last_line < fileLineCount lines
        · rw [killfeed_step_fileContent_new env (some c) s lines h2,
            killfeed_step_fileContent_new env none s lines h2]
          rw [process_batch_sink_indep env (some c)]
          exact ⟨rfl, rfl⟩
        · omega
    | outerError rc => exact ⟨rfl, rfl⟩
    | cancelled => exact ⟨rfl, rfl⟩
  · intro env s input
    cases input with
    | noCsvFile => rfl
    | probeTimeout rc => rfl
    | probeError => rfl
    | readFailure lines timeout rc =>
      simp only [killfeed_step]
      split
      · rfl
      · cases timeout <;> rfl
    | fileContent lines =>
      by_cases h1 : fileLineCount lines ≤ s.last_line
      · simp [killfeed_step, h1]
      · by_cases h2 : s.last_line < fileLineCount lines
        · rw [killfeed_step_fileContent_new env none s lines h2]
          exact process_batch_none_msgs env _ _
        · omega
    | outerError rc =>
      simp only [killfeed_step]
      repeat' split
      all_goals rfl
    | cancelled => rfl
  · intro hs gc sf ch
    cases hs <;> cases gc <;> cases sf <;> cases ch <;> rfl

/-- A list whose members are all one value is non-decreasing. -/
theorem chain'_le_of_all_eq (c : Nat) :
    ∀ (l : List Nat), (∀ w ∈ l, w = c) → l.Chain' (· ≤ ·)
  | [], _ => List.chain'_nil
  | [a], _ => by simp
  | a :: b :: l, h => by
    rw [List.chain'_cons]
    constructor
    · rw [h a (by simp), h b (by simp)]
    · exact chain'_le_of_all_eq c (b :: l) (fun w hw => h w (by simp [hw]))

/-- A failed reconnection step leaves `backoff_time` unchanged, and any
backoff sleep it applies equals the current `backoff_time`. -/
theorem killfeed_step_fail_backoff (env : KillfeedEnv) (ch : Option Nat)
    (s : MonState) :
    (killfeed_step env ch s (.outerError (some false))).state.backoff_time = s.backoff_time
    ∧ ∀ w ∈ (killfeed_step env ch s (.outerError (some false))).backoff_wait,
        w = s.backoff_time := by
  simp only [killfeed_step]
  repeat' split
  all_goals simp

/-- Running the loop on a sequence of failed reconnection iterations keeps
`backoff_time` fixed and emits only sleeps of that length. -/
theorem killfeed_run_fail (env : KillfeedEnv) (ch : Option Nat) :
    ∀ (n : Nat) (s : MonState),
      ((killfeed_run env ch s (List.replicate n (.outerError (some false)))).1.backoff_time =
        s.backoff_time)
      ∧ (∀ w ∈ (killfeed_run env ch s (List.replicate n (.outerError (some false)))).2,
          w = s.backoff_time)
  | 0, s => by simp [killfeed_run]
  | n + 1, s => by
    rw [List.replicate_succ, killfeed_run_cons]
    have hfail := killfeed_step_fail_backoff env ch s
    have ih := killfeed_run_fail env ch n
      (killfeed_step env ch s (.outerError (some false))).state
    refine ⟨?_, ?_⟩
    · rw [ih.1, hfail.1]
    · intro w hw
      rw [List.mem_append] at hw
      rcases hw with hw | hw
    
      · have : w ∈ (killfeed_step env ch s (.outerError (some false))).backoff_wait := by
          rcases hopt : (killfeed_step env ch s (.outerError (some false))).backoff_wait with _ | x
          · rw [hopt] at hw; simp at hw
          · rw [hopt] at hw; simp at hw; simp [hopt, hw]
        exact hfail.2 w this
      · rw [ih.2 w hw, hfail.1]

/-- Claim C5: in a run of consecutive connection failures the backoff
sleeps form a non-decreasing sequence (the code keeps `backoff_time`
unchanged on a failed reconnect, so the sequence is constant), every sleep
stays within the base 5 and the ceiling 60, any successful probe resets
`backoff_time` to the base value 5 (cogs/killfeed.py lines 583-587), and no
step ever pushes `backoff_time` above the 60-second ceiling (line 667). -/
theorem killfeed_backoff_policy (env : KillfeedEnv) (ch : Option Nat)
    (s : MonState) (n : Nat) (h5 : 5 ≤ s.backoff_time) (h60 : s.backoff_time ≤ 60) :
    List.Chain' (· ≤ ·)
      (killfeed_run env ch s (List.replicate n (.outerError (some false)))).2
    ∧ (∀ w ∈ (killfeed_run env ch s (List.replicate n (.outerError (some false)))).2,
        5 ≤ w ∧ w ≤ 60)
    ∧ (∀ lines, (killfeed_step env ch s (.fileContent lines)).state.backoff_time = 5)
    ∧ (∀ input, (killfeed_step env ch s input).state.backoff_time ≤ 60) := by
  refine ⟨?_, ?_, ?_, ?_⟩
  · exact chain'_le_of_all_eq s.backoff_time _ (killfeed_run_fail env ch n s).2
  · intro w hw
    rw [(killfeed_run_fail env ch n s).2 w hw]
    exact ⟨h5, h60⟩
  · intro lines
    simp only [killfeed_step]
    repeat' split
    all_goals rfl
  · intro input
    cases input <;> simp only [killfeed_step] <;> repeat' split
    all_goals simp_all

/-- Witness for `killfeed_backoff_policy`: three consecutive failed
reconnects from an error-saturated state. -/
theorem killfeed_backoff_policy_witness :
    List.Chain' (· ≤ ·)
      (killfeed_run trivEnv none ⟨0, 10, 0, 5, []⟩
        (List.replicate 3 (.outerError (some false)))).2
    ∧ (killfeed_step trivEnv none ⟨0, 10, 0, 5, []⟩ (.fileContent ["a"])).state.backoff_time = 5 :=
  ⟨(killfeed_backoff_policy trivEnv none ⟨0, 10, 0, 5, []⟩ 3 (by decide) (by decide)).1,
   (killfeed_backoff_policy trivEnv none ⟨0, 10, 0, 5, []⟩ 3 (by decide) (by decide)).2.2.1 ["a"]⟩

/-- Claim C8: the kill-feed monitor never writes a smaller cursor — every
iteration leaves `last_line` unchanged or advances it — the events monitor
of temp_extract/NewBeta-main/cogs/events.py likewise never decreases its
cursor, and a restart loads the persisted value, falling back to 0 only
when no cursor exists. -/
theorem cursor_monotone :
    (∀ (env : KillfeedEnv) (ch : Option Nat) (s : MonState) (input : KillfeedInput),
      s.last_line ≤ (killfeed_step env ch s input).state.last_line)
    ∧ (∀ ll total nl pe pc ec cc : Nat,
        ll ≤ events_cursor_after_iteration ll total nl pe pc ec cc)
    ∧ (∀ v, load_last_csv_line (some v) = v)
    ∧ load_last_csv_line none = 0 := by
  refine ⟨?_, ?_, fun v => rfl, rfl⟩
  · intro env ch s input
    cases input <;> simp only [killfeed_step] <;> repeat' split
    all_goals simp
  · intro ll total nl pe pc ec cc
    unfold events_cursor_after_iteration
    repeat' split
    all_goals omega

/-- The logical kill event of the C1 scenario, as presented to both
pipelines: identical actor, target, weapon and timestamp. -/
def c1_event : Event :=
  { timestamp := some (.pdt ⟨2025, 5, 1, 12, 0, 0⟩),
    killer_id := some (.pstr "A"), killer_name := some (.pstr "Alice"),
    victim_id := some (.pstr "B"), victim_name := some (.pstr "Bob"),
    weapon := some (.pstr "AK"), distance := some (.pint 100) }

/-- Claim C1 counterexample: the same logical kill event is presented once
through the CSV kill-feed path (`process_kill_event`, which inserts into
`db.kills` without ever consulting the Deduplication Coordinator,
cogs/killfeed.py lines 733-757) and once through the log path
(`log_process_entry`, which does consult the coordinator,
cogs/log_processor.py line 223).  Because the CSV path neither checks nor
records fingerprints, both presentations reach the Event Sink: two events
are persisted, not exactly one. -/
theorem c1_counterexample :
    (process_kill_event trivEnv none c1_event []).1.length = 1
    ∧ ((log_process_entry trivLogEnv "s1"
        { coord := {}, sinks := { kills := (process_kill_event trivEnv none c1_event []).1 },
          events_processed := 0 } c1_event).sinks.kills).length = 2 := by
  decide

/-- Claim C1 as amended: only the log-extraction pipeline consults the
process-wide Deduplication Coordinator; the CSV kill-feed pipeline delivers
unconditionally.  A kill event presented through both pipelines therefore
reaches the Event Sink twice — once per pipeline — while within the log
pipeline alone deduplication does work: a second presentation of the
identical event to the log pipeline is suppressed and delivers nothing. -/
theorem csv_path_bypasses_dedup (env : KillfeedEnv) (lenv : LogEnv)
    (sid : String) (e N : Event) (st : LogState) (t : DateTime) (k v : String)
    (hN : norm_stamped lenv.lib sid e = some N)
    (ht : e.timestamp = some (.pdt t))
    (hk : e.killer_id = some (.pstr k)) (hv : e.victim_id = some (.pstr v))
    (het : e.event_type = none)
    (hk0 : k ≠ "") (hv0 : v ≠ "") (hkv : k ≠ v) (hsid : sid ≠ "")
    (hins : ∀ x, env.insertOk x = true) (hdb : ∀ x, lenv.dbOk x = true)
    (hfresh : generate_event_hash lenv.fh N ∉ st.coord.seen) :
    (∀ (ch : Option Nat) (sk : List Event),
      (process_kill_event env ch e sk).1.length = sk.length + 1)
    ∧ (log_process_entry lenv sid st e).sinks.kills.length = st.sinks.kills.length + 1
    ∧ (log_process_entry lenv sid (log_process_entry lenv sid st e) e).sinks =
        (log_process_entry lenv sid st e).sinks := by
  have hNfields : N.timestamp = normalize_timestamp lenv.lib e.timestamp
      ∧ N.killer_id = noneToEmpty e.killer_id
      ∧ N.victim_id = noneToEmpty e.victim_id
      ∧ N.event_type = e.event_type
      ∧ N.server_id = some (.pstr sid) := by
    unfold norm_stamped at hN
    rcases hmap : normalize_event_data lenv.lib e with _ | nrm
    · rw [hmap] at hN
      simp at hN
    · rw [hmap] at hN
      unfold normalize_event_data at hmap
      cases hnd : normalize_distance lenv.lib e.distance with
      | none =>
        rw [hnd] at hmap
        simp at hmap
      | some dist =>
        rw [hnd] at hmap
        simp only [Option.some.injEq] at hmap
        simp only [Option.map_some', Option.some.injEq] at hN
        subst hmap
        subst hN
        refine ⟨?_, ?_, ?_, ?_, ?_⟩ <;> simp
  obtain ⟨hNts0, hNk0, hNv0, hNet0, hNsid⟩ := hNfields
  have hNts : N.timestamp = some (.pdt t) := by
    rw [hNts0]
    simp [normalize_timestamp, ht]
  have hNk : N.killer_id = some (.pstr k) := by
    rw [hNk0]
    simp [noneToEmpty, hk]
  have hNv : N.victim_id = some (.pstr v) := by
    rw [hNv0]
    simp [noneToEmpty, hv]
  have hNet : N.event_type = none := by
    rw [hNet0, het]
  have hkne : (k == v) = false := beq_eq_false_iff_ne.mpr hkv
  have hcat : categorize_event N = "kill" := by
    unfold categorize_event categorize_rest
    simp [hNet, hNk, hNv, PyVal.truthy, PyVal.pyEq, hkne,
      String.isEmpty_iff, hk0, hv0]
  have hlp : ∀ kills : List Event,
      (lp_process_kill_event lenv N kills).2.length = kills.length + 1 := by
    intro kills
    unfold lp_process_kill_event
    rw [hNsid, hNk, hNv, hNts]
    simp [pyGet, PyVal.truthy, PyVal.pyEq, hkne, String.isEmpty_iff,
      hk0, hv0, hsid, hdb]
  have hdup1 : is_duplicate_event lenv.fh N st.coord =
      (false, { st.coord with seen := prune_old_hashes (st.coord.seen ++
        [generate_event_hash lenv.fh N]) }) := by
    unfold is_duplicate_event
    rw [if_neg hfresh]
  refine ⟨?_, ?_, ?_⟩
  · intro ch sk
    rw [process_kill_event_sink_char, ht]
    simp [hins]
  · simp only [log_process_entry, hN]
    rw [hdup1]
    simp [hNts, hcat, hlp]
  · have hseen1 : generate_event_hash lenv.fh N ∈
        (log_process_entry lenv sid st e).coord.seen := by
      simp only [log_process_entry, hN]
      rw [hdup1]
      simp [hNts, hcat, update_log_timestamp, mem_prune_append]
    have hdup2 : is_duplicate_event lenv.fh N
        (log_process_entry lenv sid st e).coord =
        (true, (log_process_entry lenv sid st e).coord) := by
      unfold is_duplicate_event
      rw [if_pos hseen1]
    set st1 := log_process_entry lenv sid st e with hst1
    conv_lhs => simp only [log_process_entry, hN]
    rw [hdup2]
    simp

/-- Witness for `csv_path_bypasses_dedup` at the concrete C1 event. -/
theorem csv_path_bypasses_dedup_witness :
    (process_kill_event trivEnv none c1_event []).1.length = List.length ([] : List Event) + 1
    ∧ (log_process_entry trivLogEnv "s1" {} c1_event).sinks.kills.length =
        ({} : LogState).sinks.kills.length + 1 :=
  ⟨(csv_path_bypasses_dedup trivEnv trivLogEnv "s1" c1_event
      { c1_event with server_id := some (.pstr "s1") } {} ⟨2025, 5, 1, 12, 0, 0⟩
      "A" "B" (by decide) rfl rfl rfl rfl (by decide) (by decide) (by decide) (by decide)
      (fun _ => rfl) (fun _ => rfl) (by simp)).1 none [],
   (csv_path_bypasses_dedup trivEnv trivLogEnv "s1" c1_event
      { c1_event with server_id := some (.pstr "s1") } {} ⟨2025, 5, 1, 12, 0, 0⟩
      "A" "B" (by decide) rfl rfl rfl rfl (by decide) (by decide) (by decide) (by decide)
      (fun _ => rfl) (fun _ => rfl) (by simp)).2.1⟩

/-- The timestamp strings of the C10 event family: `i` repetitions of one
character, so that distinct indices give fingerprints of distinct
lengths. -/
def c10_ts (i : Nat) : String := String.mk (List.replicate i 'a')

/-- The C10 event family: kill events identical except for their
timestamps. -/
def c10_ev (i : Nat) : Event :=
  { timestamp := some (.pstr (c10_ts i)), killer_id := some (.pstr "k"),
    victim_id := some (.pstr "v"), weapon := some (.pstr "w") }

/-- The fingerprint of the `i`-th C10 event. -/
def c10_hash (i : Nat) : String := generate_event_hash trivFh (c10_ev i)

theorem c10_hash_length (i : Nat) : (c10_hash i).length = i + 6 := by
  have h1 : ("_" : String).length = 1 := rfl
  have h2 : ("k" : String).length = 1 := rfl
  have h3 : ("v" : String).length = 1 := rfl
  have h4 : ("w" : String).length = 1 := rfl
  have h5 : (c10_ts i).length = i := by simp [c10_ts]
  show (c10_ts i ++ "_" ++ "k" ++ "_" ++ "v" ++ "_" ++ "w").length = i + 6
  simp only [String.length_append, h1, h2, h3, h4, h5]

theorem c10_hash_inj {i j : Nat} (h : c10_hash i = c10_hash j) : i = j := by
  have hl := congrArg String.length h
  rw [c10_hash_length, c10_hash_length] at hl
  omega

/-- One coordinator step of the C10 run. -/
def c10_step (st : CoordState) (i : Nat) : CoordState :=
  (is_duplicate_event trivFh (c10_ev i) st).2

/-- The coordinator state after admitting the first `n` C10 events. -/
def c10_state (n : Nat) : CoordState := (List.range n).foldl c10_step {}

theorem c10_state_succ (n : Nat) :
    c10_state (n + 1) = c10_step (c10_state n) n := by
  unfold c10_state
  rw [List.range_succ, List.foldl_append]
  rfl

theorem c10_state_seen : ∀ n, n ≤ 10000 →
    (c10_state n).seen = (List.range n).map c10_hash
  | 0, _ => by simp [c10_state]
  | n + 1, h => by
    have ih := c10_state_seen n (by omega)
    have hnot : generate_event_hash trivFh (c10_ev n) ∉ (c10_state n).seen := by
      rw [ih]
      intro hmem
      rw [List.mem_map] at hmem
      obtain ⟨i, hi, hij⟩ := hmem
      rw [List.mem_range] at hi
      exact absurd (c10_hash_inj hij) (by omega)
    rw [c10_state_succ]
    unfold c10_step
    simp only [is_duplicate_event]
    rw [if_neg hnot]
    show prune_old_hashes ((c10_state n).seen ++ [generate_event_hash trivFh (c10_ev n)]) =
      (List.range (n + 1)).map c10_hash
    rw [ih]
    have hlen : ((List.range n).map c10_hash ++ [generate_event_hash trivFh (c10_ev n)]).length
        = n + 1 := by simp
    unfold prune_old_hashes
    rw [hlen, if_neg (by omega : ¬ 10000 < n + 1)]
    rw [List.range_succ, List.map_append]
    rfl

theorem c10_prune_step (st : CoordState)
    (hseen : st.seen = (List.range 10000).map c10_hash) :
    (c10_step st 10000).seen =
      ((List.range 10000).map c10_hash ++ [c10_hash 10000]).drop 9001 := by
  have hnot : generate_event_hash trivFh (c10_ev 10000) ∉ st.seen := by
    rw [hseen]
    intro hmem
    rw [List.mem_map] at hmem
    obtain ⟨i, hi, hij⟩ := hmem
    rw [List.mem_range] at hi
    exact absurd (c10_hash_inj hij) (by omega)
  unfold c10_step
  simp only [is_duplicate_event]
  rw [if_neg hnot]
  show prune_old_hashes (st.seen ++ [generate_event_hash trivFh (c10_ev 10000)]) =
    ((List.range 10000).map c10_hash ++ [c10_hash 10000]).drop 9001
  rw [hseen]
  have hlen : ((List.range 10000).map c10_hash ++ [generate_event_hash trivFh (c10_ev 10000)]).length
      = 10001 := by simp
  unfold prune_old_hashes
  rw [hlen, if_pos (by omega : 10000 < 10001), if_pos (by omega : 1000 < 10001)]
  have hsub : (10001 : Nat) - 1000 = 9001 := by omega
  have hdef : generate_event_hash trivFh (c10_ev 10000) = c10_hash 10000 := rfl
  rw [hsub, hdef]

theorem c10_state_10001_seen :
    (c10_state 10001).seen =
      ((List.range 10000).map c10_hash ++ [c10_hash 10000]).drop 9001 := by
  rw [c10_state_succ]
  exact c10_prune_step (c10_state 10000) (c10_state_seen 10000 (by omega))

/-- The fingerprint of the first C10 event is evicted by pruning: it is not
among the retained 1000 most recent fingerprints. -/
theorem c10_h0_not_in_final : c10_hash 0 ∉ (c10_state 10001).seen := by
  rw [c10_state_10001_seen]
  intro hmem
  obtain ⟨idx, hidx, hval⟩ := List.mem_iff_getElem.mp hmem
  rw [List.getElem_drop] at hval
  have hidx' : idx < 1000 := by
    simp [List.length_drop, List.length_append, List.length_map,
      List.length_range] at hidx
    omega
  by_cases hcase : 9001 + idx < 10000
  · rw [List.getElem_append_left (by simpa using hcase)] at hval
    rw [List.getElem_map, List.getElem_range] at hval
    have := c10_hash_inj hval
    omega
  · have hge : ((List.range 10000).map c10_hash).length ≤ 9001 + idx := by
      simp
      omega
    rw [List.getElem_append_right hge] at hval
    rw [List.getElem_singleton] at hval
    have := c10_hash_inj hval
    omega

/-- Claim C10 counterexample: the duplicate check does record the
fingerprint before the caller processes the event (first two conjuncts),
but the record is not kept forever: after 10000 further distinct events the
pruning in `_prune_old_hashes` (triggered once the set exceeds 10000
entries, retaining only the 1000 most recent) has evicted the first event's
fingerprint, so a re-presentation of that identical event is NOT reported
as a duplicate — refuting "this record is never rolled back" and the
consequent "a later re-presentation ... is reported as a duplicate". -/
theorem c10_counterexample :
    (is_duplicate_event trivFh (c10_ev 0) {}).1 = false
    ∧ generate_event_hash trivFh (c10_ev 0) ∈ (is_duplicate_event trivFh (c10_ev 0) {}).2.seen
    ∧ (is_duplicate_event trivFh (c10_ev 0) (c10_state 10001)).1 = false := by
  refine ⟨by decide, by decide, ?_⟩
  have h0 : generate_event_hash trivFh (c10_ev 0) ∉ (c10_state 10001).seen :=
    c10_h0_not_in_final
  simp only [is_duplicate_event]
  rw [if_neg h0]

/-- Claim C10 as amended: whenever `is_duplicate_event` returns `false` it
has already recorded the event's fingerprint in the seen-set before the
caller attempts downstream processing, and a later re-presentation of an
identical event is reported as a duplicate and dropped as long as the
fingerprint is still in the seen-set; the record survives further
admissions while the set holds fewer than 10000 fingerprints, but once an
admission pushes the set past 10000 entries it is pruned to the 1000 most
recent fingerprints and older records can be evicted, after which the
re-presentation passes the duplicate check again. -/
theorem dedup_records_before_processing (fh : Event → Int) (e eo : Event)
    (st : CoordState) :
    ((is_duplicate_event fh e st).1 = false →
      generate_event_hash fh e ∈ (is_duplicate_event fh e st).2.seen)
    ∧ (generate_event_hash fh e ∈ st.seen → is_duplicate_event fh e st = (true, st))
    ∧ (∀ h, h ∈ st.seen → st.seen.length < 10000 →
        h ∈ (is_duplicate_event fh eo st).2.seen) := by
  refine ⟨?_, ?_, ?_⟩
  · intro hfalse
    by_cases hm : generate_event_hash fh e ∈ st.seen
    · unfold is_duplicate_event at hfalse
      simp [hm] at hfalse
    · unfold is_duplicate_event
      rw [if_neg hm]
      show generate_event_hash fh e ∈
        prune_old_hashes (st.seen ++ [generate_event_hash fh e])
      exact mem_prune_append _ _
  · intro hm
    unfold is_duplicate_event
    rw [if_pos hm]
  · intro h hmem hlen
    unfold is_duplicate_event
    by_cases hm : generate_event_hash fh eo ∈ st.seen
    · rw [if_pos hm]
      exact hmem
    · rw [if_neg hm]
      show h ∈ prune_old_hashes (st.seen ++ [generate_event_hash fh eo])
      have hl : (st.seen ++ [generate_event_hash fh eo]).length = st.seen.length + 1 := by
        simp
      unfold prune_old_hashes
      rw [hl, if_neg (by omega : ¬ 10000 < st.seen.length + 1)]
      simp [hmem]

/-- Witness for `dedup_records_before_processing` at a concrete event and
seen-set. -/
theorem dedup_records_before_processing_witness :
    generate_event_hash trivFh (c10_ev 0) ∈ (is_duplicate_event trivFh (c10_ev 0) {}).2.seen
    ∧ is_duplicate_event trivFh (c10_ev 0)
        ⟨[generate_event_hash trivFh (c10_ev 0)], [], []⟩ =
      (true, ⟨[generate_event_hash trivFh (c10_ev 0)], [], []⟩) :=
  ⟨(dedup_records_before_processing trivFh (c10_ev 0) (c10_ev 0) {}).1 (by decide),
   (dedup_records_before_processing trivFh (c10_ev 0) (c10_ev 0)
      ⟨[generate_event_hash trivFh (c10_ev 0)], [], []⟩).2.1 (by simp)⟩
